import Mathlib

/-!
Verification model of the python-orion-client core: the NGSI-LD attribute
builders and entity model (`src/orionldclient/model/_attribute.py`,
`src/orionldclient/model/entity.py`) and the entities endpoint protocol
(`src/ngsildclient/api/entities.py`).

Python dictionaries are modelled as ordered association lists with the
CPython semantics: assigning to an existing key keeps its position and
replaces its value, assigning to a fresh key appends it, and the merge
operator walks the right operand in order.
-/

namespace Spec2Proof

/-- A Python value as seen by the attribute builders: JSON scalars, lists,
string-keyed dicts, plus the non-JSON runtime values the code branches on
(datetime objects, tuples, None). A float is carried as a decimal
mantissa/exponent pair; builders never compute with it. A datetime carries
its ISO-8601 rendering, which is what iso8601.from_datetime extracts. -/
inductive JVal where
  | null
  | vbool (b : Bool)
  | vint (n : Int)
  | vfloat (mant : Int) (exp : Int)
  | vstr (s : String)
  | vlist (xs : List JVal)
  | vdict (entries : List (String × JVal))
  | vdatetime (iso : String)
  | vtuple (xs : List JVal)
deriving Repr

/-- An ordered string-keyed dictionary (the NgsiDict payloads). -/
abbrev NDict := List (String × JVal)

/-- CPython `d[k] = v`: replace in place if the key exists, else append. -/
def setKey : NDict → String → JVal → NDict
  | [], k, v => [(k, v)]
  | (k', v') :: rest, k, v =>
      if k' = k then (k', v) :: rest else (k', v') :: setKey rest k v

/-- CPython `d.get(k)`: first binding of the key, if any. -/
def getKey : NDict → String → Option JVal
  | [], _ => none
  | (k', v') :: rest, k => if k' = k then some v' else getKey rest k

/-- CPython `d |= u`: fold the right operand into the left, in order. -/
def mergeRight (d u : NDict) : NDict :=
  u.foldl (fun acc kv => setKey acc kv.1 kv.2) d

/-- CPython truthiness of a value. -/
def truthy : JVal → Bool
  | .null => false
  | .vbool b => b
  | .vint n => n != 0
  | .vfloat m _ => m != 0
  | .vstr s => s ≠ ""
  | .vlist xs => !xs.isEmpty
  | .vdict en => !en.isEmpty
  | .vdatetime _ => true
  | .vtuple xs => !xs.isEmpty

/-- Truthiness of `d.get(k, None)`. -/
def truthyOpt : Option JVal → Bool
  | none => false
  | some v => truthy v

/-- Modelled from the spec: the UrnNormalizer (`orionldclient.utils.urnNormalize`
and `ngsildclient.utils.urn.Urn.prefix`) is not under src/. Per the spec it
normalizes bare identifiers into the `urn:ngsi-ld:` form and is idempotent on
already-prefixed ids. -/
def urnNormalize (s : String) : String :=
  if s.startsWith "urn:ngsi-ld:" then s else "urn:ngsi-ld:" ++ s

/-- Urn.prefix lifted to the value level: Python passes `None` through. -/
def urnNormalizeV : JVal → JVal
  | .vstr s => .vstr (urnNormalize s)
  | v => v

/-- Error raised by the attribute builders. -/
inductive AttrErr where
  | unmatchedType
  | dateFormatError
deriving DecidableEq, Repr

/-- The isinstance check of build_property:
`isinstance(value, (int, float, bool, str, list, dict))`. -/
def isJsonable : JVal → Bool
  | .vint _ => true
  | .vfloat _ _ => true
  | .vbool _ => true
  | .vstr _ => true
  | .vlist _ => true
  | .vdict _ => true
  | _ => false

/-- `observedat` normalization inside the builders: a datetime is rendered
through iso8601.from_datetime, any other value is stored as given. -/
def normObserved : JVal → JVal
  | .vdatetime iso => .vstr iso
  | v => v

/-- build_property from `_attribute.py`: sets `type`, validates the value
shape, sets `value`, attaches optional unitCode / observedAt / datasetId
(the dataset id URN-normalized), then merges userdata with `|=` when it is
truthy. The metadata key names come from the spec (META_ATTR_* constants are
not under src/). -/
def build_property (value : JVal) (unitcode : Option String)
    (observedat : Option JVal) (datasetid : Option String)
    (userdata : NDict) : Except AttrErr NDict :=
  let p : NDict := setKey [] "type" (.vstr "Property")
  if isJsonable value then
    let p := setKey p "value" value
    let p := match unitcode with
      | some uc => setKey p "unitCode" (.vstr uc)
      | none => p
    let p := match observedat with
      | some oa => setKey p "observedAt" (normObserved oa)
      | none => p
    let p := match datasetid with
      | some ds => setKey p "datasetId" (.vstr (urnNormalize ds))
      | none => p
    if userdata.isEmpty then .ok p else .ok (mergeRight p userdata)
  else
    .error .unmatchedType

/-- build_relationship from `_attribute.py`: sets `type`, sets `object` to
the URN-normalized target, attaches optional observedAt, then merges
userdata with `|=` when it is truthy. It never raises. -/
def build_relationship (value : String) (observedat : Option JVal)
    (userdata : NDict) : NDict :=
  let p : NDict := setKey [] "type" (.vstr "Relationship")
  let p := setKey p "object" (.vstr (urnNormalize value))
  let p := match observedat with
    | some oa => setKey p "observedAt" (normObserved oa)
    | none => p
  if userdata.isEmpty then p else mergeRight p userdata

/-! ### Entity model (value level), `entity.py` -/

/-- Error raised by Entity.from_dict. -/
inductive ModelErr where
  | missingId
  | missingType
  | missingContext
deriving DecidableEq, Repr

/-- The two bootstrap context URIs of ContextBuilder.DEFAULT. -/
def FIWARE_CTX : String := "https://schema.lab.fiware.org/ld/context"

/-- The NGSI-LD core context URI, second element of ContextBuilder.DEFAULT. -/
def CORE_CTX : String := "https://uri.etsi.org/ngsi-ld/v1/ngsi-ld-core-context.jsonld"

/-- The value carried by ContextBuilder.DEFAULT at module load. The sharing
of this list across default-constructed builders is modelled separately in
the heap model below; here only its contents matter. -/
def CTX_DEFAULT : JVal := .vlist [.vstr FIWARE_CTX, .vstr CORE_CTX]

/-- The payload built by `Entity.__init__(id, type, context)`:
`{"@context": context, "id": Urn.prefix(id), "type": type}`. -/
def entityInitPayload (id ty ctx : JVal) : NDict :=
  [("@context", ctx), ("id", urnNormalizeV id), ("type", ty)]

/-- Entity.from_dict: raise when `get("id")`, `get("type")` or
`get("@context")` is falsy (in that order); otherwise build a fresh
`cls(None, None)` instance (default context argument) and merge the whole
document onto its payload with `|=`. -/
def from_dict (doc : NDict) : Except ModelErr NDict :=
  if !truthyOpt (getKey doc "id") then .error .missingId
  else if !truthyOpt (getKey doc "type") then .error .missingType
  else if !truthyOpt (getKey doc "@context") then .error .missingContext
  else .ok (mergeRight (entityInitPayload .null .null CTX_DEFAULT) doc)

/-! ### Entities endpoint protocol, `api/entities.py`

The broker is external to the repository; its nominal behaviour is modelled
from the spec (section 6): POST answers 201 with a Location echoing the
posted id, or 409 when the id is already present; GET answers 200 with the
stored document (which always carries `@context`, having been posted from an
Entity payload) or 404; DELETE answers 204 or 404. Broker state is the list
of stored entity ids. Only the id of an Entity is observed by the protocol,
so entities are carried as their id plus an opaque tag. -/

/-- Broker state: the ids currently stored. -/
abbrev Broker := List String

/-- An entity as seen by the endpoint: the protocol reads only its id. -/
structure Ent where
  id : String
deriving DecidableEq, Repr

/-- Client-level configuration referenced by `Entities.create`. -/
structure Cfg where
  overwrite : Bool
  ignore_errors : Bool
deriving DecidableEq, Repr

/-- One network request issued by the endpoint. -/
inductive Req where
  | post (eid : String)
  | get (eid : String)
  | del (eid : String)
deriving DecidableEq, Repr

/-- Errors surfaced by the endpoint operations. -/
inductive ApiErr where
  | alreadyExists
  | apiError (status : Nat)
  | missingLocation
  | idMismatch (expected returned : String)
deriving DecidableEq, Repr

/-- The id extraction `location.rsplit("/", 1)[-1]` of Entities.create:
everything after the last slash, the whole string when there is none. -/
def afterLastSlash (s : String) : String :=
  ⟨(s.data.reverse.takeWhile (fun c => c ≠ '/')).reverse⟩

/-- Modelled from the spec: `Client.raise_for_status` is not under src/.
Per the spec it is a no-op on success and classifies other statuses,
surfacing the 409 conflict as AlreadyExistsError. -/
def raise_for_status (status : Nat) : Except ApiErr Unit :=
  if 200 ≤ status ∧ status < 300 then .ok ()
  else if status = 409 then .error .alreadyExists
  else .error (.apiError status)

/-- Modelled from the spec: nominal broker POST of an entity document. -/
def brokerPost (br : Broker) (eid : String) : Nat × Option String × Broker :=
  if eid ∈ br then (409, none, br)
  else (201, some ("http://broker/ngsi-ld/v1/entities/" ++ eid), br ++ [eid])

/-- Modelled from the spec: nominal broker GET; the Bool is whether the
returned JSON payload carries an `@context` key (stored payloads always do,
having been posted from Entity payloads). -/
def brokerGet (br : Broker) (eid : String) : Nat × Bool :=
  if eid ∈ br then (200, true) else (404, false)

/-- Modelled from the spec: nominal broker DELETE. -/
def brokerDelete (br : Broker) (eid : String) : Nat × Broker :=
  if eid ∈ br then (204, br.erase eid) else (404, br)

/-- Entities.exists: GET the id; when the response is truthy (status below
400) report whether the payload carries `@context`, else report False. -/
def existsOp (br : Broker) (eid : String) : Bool × List Req :=
  let (status, hasCtx) := brokerGet br eid
  ((if status < 400 then hasCtx else false), [.get eid])

/-- Entities.delete: DELETE the id, classify the status, return the
truthiness of the response. -/
def deleteOp (br : Broker) (eid : String) :
    Except ApiErr Bool × Broker × List Req :=
  let (status, br1) := brokerDelete br eid
  match raise_for_status status with
  | .error er => (.error er, br1, [.del eid])
  | .ok _ => (.ok (decide (status < 400)), br1, [.del eid])

mutual

/-- Entities.create: POST the payload; on 409 return None when `skip`, or
recurse into update(check_exists=False) when `overwrite` or the client-level
overwrite flag is set; otherwise classify the status (which raises
AlreadyExistsError on the remaining 409 path), then check the Location
header and the echoed id, and return the entity. -/
def create (cfg : Cfg) (br : Broker) (e : Ent) (skip overwrite : Bool) :
    Except ApiErr (Option Ent) × Broker × List Req :=
  let (status, loc, br1) := brokerPost br e.id
  if status = 409 ∧ skip = true then (.ok none, br1, [.post e.id])
  else if status = 409 ∧ (overwrite || cfg.overwrite) = true then
    let (res, br2, tr) := update cfg br1 e false
    (res, br2, .post e.id :: tr)
  else
    match raise_for_status status with
    | .error er => (.error er, br1, [.post e.id])
    | .ok _ =>
      match loc with
      | none =>
          if cfg.ignore_errors then (.ok none, br1, [.post e.id])
          else (.error .missingLocation, br1, [.post e.id])
      | some location =>
          let idReturned := afterLastSlash location
          if idReturned = e.id then (.ok (some e), br1, [.post e.id])
          else (.error (.idMismatch e.id idReturned), br1, [.post e.id])
termination_by 1
decreasing_by simp

/-- Entities.update: when check_exists is requested and the entity exists,
delete then create it; in every other case return None. -/
def update (cfg : Cfg) (br : Broker) (e : Ent) (check_exists : Bool) :
    Except ApiErr (Option Ent) × Broker × List Req :=
  match check_exists with
  | true =>
    let (ex, tr1) := existsOp br e.id
    if ex then
      match deleteOp br e.id with
      | (.error er, br2, tr2) => (.error er, br2, tr1 ++ tr2)
      | (.ok _, br2, tr2) =>
          let (res, br3, tr3) := create cfg br2 e false false
          (res, br3, tr1 ++ tr2 ++ tr3)
    else (.ok none, br, tr1)
  | false => (.ok none, br, [])
termination_by (match check_exists with | true => 2 | false => 0)
decreasing_by simp

end

/-- Entities.upsert: attempt create; when it raises AlreadyExistsError,
delete the entity and create it again; every other outcome passes through. -/
def upsert (cfg : Cfg) (br : Broker) (e : Ent) :
    Except ApiErr (Option Ent) × Broker × List Req :=
  match create cfg br e false false with
  | (.error .alreadyExists, br1, tr1) =>
      match deleteOp br1 e.id with
      | (.error er, br2, tr2) => (.error er, br2, tr1 ++ tr2)
      | (.ok _, br2, tr2) =>
          let (res, br3, tr3) := create cfg br2 e false false
          (res, br3, tr1 ++ tr2 ++ tr3)
  | r => r

/-! ### Query and count, `api/entities.py` -/

/-- Errors surfaced by `_query` and `count`. -/
inductive QErr where
  | valueError
  | apiError (status : Nat)
  | headerMissing
  | headerNotInt
  | modelErr (e : ModelErr)
deriving DecidableEq, Repr

/-- CPython truthiness of an optional string argument (`if type:`):
None and the empty string are falsy. -/
def optTruthy : Option String → Bool
  | none => false
  | some s => s ≠ ""

/-- One GET request issued by `_query` or `count`: query parameters plus
headers; a None header value is the explicit per-request override clearing
the session default (`"Content-Type": None`). -/
structure GetReq where
  params : List (String × String)
  headers : List (String × Option String)
deriving DecidableEq, Repr

/-- The headers both operations send: an Accept header, the Content-Type
override, and the context Link header when a context was supplied. -/
def mkHeaders (accept : String) (ctx : Option String) :
    List (String × Option String) :=
  let hs : List (String × Option String) :=
    [("Accept", some accept), ("Content-Type", none)]
  match ctx with
  | some c => hs ++ [("Link", some ("<" ++ c ++
      ">; rel=\"http://www.w3.org/ns/json-ld#context\"; type=\"application/ld+json\""))]
  | none => hs

/-- Appends the type / q / geoQ filters to the request parameters the way
both `_query` and `count` do. -/
def addFilters (params : List (String × String))
    (ty q gq : Option String) : List (String × String) :=
  let params := match ty with
    | some t => if t ≠ "" then params ++ [("type", t)] else params
    | none => params
  let params := match q with
    | some s => if s ≠ "" then params ++ [("q", s)] else params
    | none => params
  match gq with
  | some s => if s ≠ "" then params ++ [("geoQ", s)] else params
  | none => params

/-- Entities._query: build limit/offset parameters, raise ValueError when
neither type nor q was given, add the filters, GET, and materialize each
returned document through Entity.from_dict. The broker response is passed
in as the list of decoded documents. -/
def queryOp (ty q gq ctx : Option String) (limit offset : Nat)
    (resp : List NDict) :
    Except QErr (List NDict) × List GetReq :=
  let params : List (String × String) :=
    (if limit ≠ 0 then [("limit", toString limit)] else []) ++
    (if offset ≠ 0 then [("offset", toString offset)] else [])
  if ty = none ∧ q = none then (.error .valueError, [])
  else
    let params := addFilters params ty q gq
    let req : GetReq := ⟨params, mkHeaders "application/ld+json" ctx⟩
    match resp.mapM from_dict with
    | .ok es => (.ok es, [req])
    | .error er => (.error (.modelErr er), [req])

/-- Entities.count: build the fixed limit/count parameters, raise ValueError
when neither type nor q was given, add the filters, GET, and parse the
NGSILD-Results-Count header as an integer. The header value is passed in. -/
def countOp (ty q gq ctx : Option String) (hdr : Option String) :
    Except QErr Int × List GetReq :=
  let params : List (String × String) := [("limit", "0"), ("count", "true")]
  if ty = none ∧ q = none then (.error .valueError, [])
  else
    let params := addFilters params ty q gq
    let req : GetReq := ⟨params, mkHeaders "application/json" ctx⟩
    match hdr with
    | none => (.error .headerMissing, [req])
    | some s =>
      match s.toInt? with
      | none => (.error .headerNotInt, [req])
      | some n => (.ok n, [req])

/-! ### Heap model for reference sharing, `entity.py`

ContextBuilder keeps a class-level DEFAULT list and `Entity.__init__`
evaluates its default context argument `ContextBuilder().build()` once, at
definition time. Observing these aliasing effects needs object identity, so
this part of the model runs over an explicit heap: addresses are indices
into a list of nodes, allocation appends, and in-place mutation overwrites
one index. The payloads involved are trees, so the deepcopy memo plays no
role. -/

/-- A heap node: a string, a list of addresses, or an ordered dict mapping
string keys to addresses. -/
inductive PVal where
  | pstr (s : String)
  | plist (elems : List Nat)
  | pdict (entries : List (String × Nat))
deriving DecidableEq, Repr

/-- The heap: node at address `a` is the list entry at index `a`. -/
abbrev Heap := List PVal

/-- Allocate a fresh node. -/
def alloc (h : Heap) (v : PVal) : Heap × Nat :=
  (h ++ [v], h.length)

/-- Read a string node. -/
def readStr (h : Heap) (a : Nat) : Option String :=
  match h.get? a with
  | some (.pstr s) => some s
  | _ => none

/-- Read a list node, resolving its elements as strings. -/
def readStrList (h : Heap) (a : Nat) : Option (List String) :=
  match h.get? a with
  | some (.plist es) => es.mapM (readStr h)
  | _ => none

/-- Lookup `d.get(k)` on a dict node: the address its key maps to. -/
def dictGet (h : Heap) (a : Nat) (k : String) : Option Nat :=
  match h.get? a with
  | some (.pdict en) => (en.find? (fun kv => kv.1 = k)).map (·.2)
  | _ => none

/-- Update-or-append on dict entries, keeping key order (CPython). -/
def setEntry : List (String × Nat) → String → Nat → List (String × Nat)
  | [], k, v => [(k, v)]
  | (k', v') :: rest, k, v =>
      if k' = k then (k', v) :: rest else (k', v') :: setEntry rest k v

/-- Assignment `d[k] = v` on the dict node at `a`: in-place heap mutation. -/
def dictSet (h : Heap) (a : Nat) (k : String) (v : Nat) : Heap :=
  match h.get? a with
  | some (.pdict en) => h.set a (.pdict (setEntry en k v))
  | _ => h

/-- Deletion `del d[k]` on the dict node at `a`: in-place heap mutation. -/
def dictDel (h : Heap) (a : Nat) (k : String) : Heap :=
  match h.get? a with
  | some (.pdict en) => h.set a (.pdict (en.filter (fun kv => kv.1 ≠ k)))
  | _ => h

/-- Append `l.append(x)` on the list node at `a`: in-place heap mutation. -/
def listAppend (h : Heap) (a : Nat) (x : Nat) : Heap :=
  match h.get? a with
  | some (.plist es) => h.set a (.plist (es ++ [x]))
  | _ => h

mutual

/-- copy.deepcopy of the node at `a`: fresh nodes for the whole tree. The
fuel only serves Lean termination (every call consumes one unit); any value
above the tree size gives the Python behaviour. -/
def deepcopy : Nat → Heap → Nat → Option (Heap × Nat)
  | 0, _, _ => none
  | fuel + 1, h, a =>
    match h.get? a with
    | some (.pstr s) => some (alloc h (.pstr s))
    | some (.plist es) =>
        match deepcopyList fuel h es with
        | some (h1, es1) => some (alloc h1 (.plist es1))
        | none => none
    | some (.pdict en) =>
        match deepcopyEntries fuel h en with
        | some (h1, en1) => some (alloc h1 (.pdict en1))
        | none => none
    | none => none

/-- deepcopy of the elements of a list node, left to right. -/
def deepcopyList : Nat → Heap → List Nat → Option (Heap × List Nat)
  | 0, _, _ => none
  | _ + 1, h, [] => some (h, [])
  | fuel + 1, h, a :: rest =>
    match deepcopy fuel h a with
    | some (h1, a1) =>
        match deepcopyList fuel h1 rest with
        | some (h2, rest1) => some (h2, a1 :: rest1)
        | none => none
    | none => none

/-- deepcopy of the entries of a dict node, in order. -/
def deepcopyEntries : Nat → Heap → List (String × Nat) →
    Option (Heap × List (String × Nat))
  | 0, _, _ => none
  | _ + 1, h, [] => some (h, [])
  | fuel + 1, h, (k, a) :: rest =>
    match deepcopy fuel h a with
    | some (h1, a1) =>
        match deepcopyEntries fuel h1 rest with
        | some (h2, rest1) => some (h2, (k, a1) :: rest1)
        | none => none
    | none => none

end

/-- Entity.to_dict over the heap: when contextfirst, hand back the stored
payload itself; otherwise read the context address, deepcopy the payload,
delete its `@context` key and re-insert the original context address at the
end. The fuel feeds deepcopy only. -/
def to_dict (fuel : Nat) (h : Heap) (payload : Nat) (contextfirst : Bool) :
    Option (Heap × Nat) :=
  if contextfirst then some (h, payload)
  else
    match dictGet h payload "@context" with
    | none => none
    | some ctx =>
      match deepcopy fuel h payload with
      | none => none
      | some (h1, cp) =>
          let h2 := dictDel h1 cp "@context"
          let h3 := dictSet h2 cp "@context" ctx
          some (h3, cp)

/-- The module-load heap: the two DEFAULT context URI strings and the
DEFAULT list node holding them, allocated once. -/
def h0 : Heap := [.pstr FIWARE_CTX, .pstr CORE_CTX, .plist [0, 1]]

/-- Address of ContextBuilder.DEFAULT in the module-load heap. -/
def DEFAULT_addr : Nat := 2

/-- A ContextBuilder instance: the address its `_ctx` field refers to. -/
structure CtxBuilder where
  ctx : Nat
deriving DecidableEq, Repr

/-- Constructor `ContextBuilder(ctx)`: with no argument the instance stores a reference
to the class-level DEFAULT list, not a copy. -/
def ctxbNew (arg : Option Nat) : CtxBuilder :=
  ⟨arg.getD DEFAULT_addr⟩

/-- Method `ContextBuilder.add(uri)`: allocate the string and append its address to
the referenced list, in place. -/
def ctxbAdd (h : Heap) (b : CtxBuilder) (uri : String) : Heap × CtxBuilder :=
  let (h1, a) := alloc h (.pstr uri)
  (listAppend h1 b.ctx a, b)

/-- Method `ContextBuilder.build()`: the referenced list itself. -/
def ctxbBuild (b : CtxBuilder) : Nat :=
  b.ctx

/-- The default value of the `context` argument of `Entity.__init__`,
`ContextBuilder().build()`: evaluated once at definition time, hence the
DEFAULT address itself. -/
def entityDefaultCtx : Nat :=
  ctxbBuild (ctxbNew none)

/-- Constructor `Entity.__init__` over the heap: allocate the id and type strings and
the payload dict `{"@context": ctx, "id": Urn.prefix(id), "type": type}`. -/
def entityNew (h : Heap) (id ty : String) (ctxAddr : Nat) : Heap × Nat :=
  let (h1, ia) := alloc h (.pstr (urnNormalize id))
  let (h2, ta) := alloc h1 (.pstr ty)
  alloc h2 (.pdict [("@context", ctxAddr), ("id", ia), ("type", ta)])

/-- The keys of the dict node at `a`, in storage order. -/
def dictKeys (h : Heap) (a : Nat) : Option (List String) :=
  match h.get? a with
  | some (.pdict en) => some (en.map Prod.fst)
  | _ => none

/-- Lookup on a builder result: the key when the builder succeeded. -/
def getKeyE : Except AttrErr NDict → String → Option JVal
  | .ok d, k => getKey d k
  | .error _, _ => none

/-! ### Dictionary lemmas -/

theorem mergeRight_nil (d : NDict) : mergeRight d [] = d := rfl

theorem mergeRight_cons (d : NDict) (kv : String × JVal) (rest : NDict) :
    mergeRight d (kv :: rest) = mergeRight (setKey d kv.1 kv.2) rest := rfl

theorem getKey_setKey_self (d : NDict) (k : String) (v : JVal) :
    getKey (setKey d k v) k = some v := by
  induction d with
  | nil => simp [setKey, getKey]
  | cons kv rest ih =>
      obtain ⟨k', v'⟩ := kv
      by_cases h : k' = k
      · simp [setKey, getKey, h]
      · simp [setKey, getKey, h, ih]

theorem getKey_setKey_ne (d : NDict) (k k2 : String) (v : JVal)
    (h : k2 ≠ k) : getKey (setKey d k v) k2 = getKey d k2 := by
  induction d with
  | nil => simp [setKey, getKey, Ne.symm h]
  | cons kv rest ih =>
      obtain ⟨k', v'⟩ := kv
      by_cases hk : k' = k
      · subst hk
        simp [setKey, getKey, Ne.symm h]
      · by_cases hk2 : k' = k2 <;> simp [setKey, getKey, hk, hk2, ih, h]

theorem getKey_eq_none_of_not_mem (d : NDict) (k : String)
    (h : k ∉ d.map Prod.fst) : getKey d k = none := by
  induction d with
  | nil => rfl
  | cons kv rest ih =>
      obtain ⟨k', v'⟩ := kv
      simp only [List.map_cons, List.mem_cons] at h
      push_neg at h
      simp [getKey, Ne.symm h.1, ih h.2]

theorem getKey_mergeRight_of_none (d u : NDict) (k : String)
    (h : getKey u k = none) : getKey (mergeRight d u) k = getKey d k := by
  induction u generalizing d with
  | nil => rfl
  | cons kv rest ih =>
      obtain ⟨k', v'⟩ := kv
      rw [mergeRight_cons]
      by_cases hk : k' = k
      · simp [getKey, hk] at h
      · simp only [getKey] at h
        rw [if_neg hk] at h
        rw [ih _ h, getKey_setKey_ne _ _ _ _ (Ne.symm hk)]

theorem getKey_mergeRight_of_some (d u : NDict) (k : String) (v : JVal)
    (hnd : (u.map Prod.fst).Nodup) (h : getKey u k = some v) :
    getKey (mergeRight d u) k = some v := by
  induction u generalizing d with
  | nil => simp [getKey] at h
  | cons kv rest ih =>
      obtain ⟨k', v'⟩ := kv
      simp only [List.map_cons, List.nodup_cons] at hnd
      rw [mergeRight_cons]
      by_cases hk : k' = k
      · subst hk
        simp [getKey] at h
        subst h
        rw [getKey_mergeRight_of_none _ _ _
              (getKey_eq_none_of_not_mem _ _ hnd.1),
            getKey_setKey_self]
      · simp only [getKey] at h
        rw [if_neg hk] at h
        exact ih _ hnd.2 h

/-! ### Claim theorems -/

/-- C8: called on a value with default metadata, build_property returns a
document whose `type` is "Property" and whose `value` is the input
unchanged exactly when the input is an int, float, bool, string, list or
dict, and raises UnmatchedTypeError on every other runtime value. -/
theorem C8_build_property_value_shapes (v : JVal) :
    build_property v none none none [] =
      (match v with
       | .vint _ | .vfloat _ _ | .vbool _ | .vstr _ | .vlist _ | .vdict _ =>
           .ok [("type", .vstr "Property"), ("value", v)]
       | _ => .error .unmatchedType) := by
  cases v <;> rfl

/-- C6 counterexample: with datasetid "ds1" the stored datasetId is the
URN-normalized string "urn:ngsi-ld:ds1", not the caller input unchanged,
refuting the claim that the dataset id is attached verbatim. -/
theorem C6_datasetid_not_verbatim :
    build_property (.vint 21) none none (some "ds1") [] =
      .ok [("type", .vstr "Property"), ("value", .vint 21),
           ("datasetId", .vstr "urn:ngsi-ld:ds1")] ∧
    JVal.vstr "urn:ngsi-ld:ds1" ≠ JVal.vstr "ds1" :=
  ⟨rfl, by simp⟩

/-- C6 amended: observedAt is attached verbatim for string input (a datetime
is first rendered to its ISO-8601 string), while datasetId is stored
URN-normalized, hence equals the caller input exactly when that input
already carries the urn prefix. -/
theorem C6_provenance_metadata (v oa : JVal) (ds : String) :
    build_property v none (some oa) (some ds) [] =
      (match v with
       | .vint _ | .vfloat _ _ | .vbool _ | .vstr _ | .vlist _ | .vdict _ =>
           .ok [("type", .vstr "Property"), ("value", v),
                ("observedAt", normObserved oa),
                ("datasetId", .vstr (urnNormalize ds))]
       | _ => .error .unmatchedType) ∧
    (∀ s : String, normObserved (.vstr s) = .vstr s) ∧
    (∀ iso : String, normObserved (.vdatetime iso) = .vstr iso) ∧
    (urnNormalize ds = ds ↔ ds.startsWith "urn:ngsi-ld:" = true) := by
  refine ⟨by cases v <;> rfl, fun s => rfl, fun iso => rfl, ?_, ?_⟩
  · intro h
    by_cases hs : ds.startsWith "urn:ngsi-ld:" = true
    · exact hs
    · exfalso
      rw [urnNormalize, if_neg hs, String.congr_append] at h
      have hd := congrArg String.data h
      have hl := congrArg List.length hd
      simp at hl
      omega
  · intro hs
    rw [urnNormalize, if_pos hs]

/-- C4 counterexample: a userdata mapping that binds "type" silently
overwrites the builder discriminator, refuting the claim that merging
userdata never overwrites the keys set by the builder. -/
theorem C4_userdata_overwrites_type :
    build_property (.vint 5) none none none [("type", .vstr "Evil")] =
      .ok [("type", .vstr "Evil"), ("value", .vint 5)] ∧
    JVal.vstr "Evil" ≠ JVal.vstr "Property" :=
  ⟨rfl, by simp⟩

/-- C4 amended: the builder discriminator and value/object survive the
userdata merge whenever the userdata mapping itself binds none of the
reserved keys; when it binds them it overwrites them. -/
theorem C4_userdata_preserves_reserved (v : JVal) (uc : Option String)
    (oa : Option JVal) (ds : Option String) (s : String) (oa2 : Option JVal)
    (ud : NDict) (hT : getKey ud "type" = none) (hV : getKey ud "value" = none)
    (hO : getKey ud "object" = none) :
    getKeyE (build_property v uc oa ds ud) "type" =
      (if isJsonable v then some (.vstr "Property") else none) ∧
    getKeyE (build_property v uc oa ds ud) "value" =
      (if isJsonable v then some v else none) ∧
    getKey (build_relationship s oa2 ud) "type" =
      some (.vstr "Relationship") ∧
    getKey (build_relationship s oa2 ud) "object" =
      some (.vstr (urnNormalize s)) := by
  refine ⟨?_, ?_, ?_, ?_⟩
  · unfold build_property
    cases hj : isJsonable v
    · simp [getKeyE, hj]
    · cases uc <;> cases oa <;> cases ds <;> by_cases hu : ud.isEmpty <;>
        simp [getKeyE, hj, hu, getKey_mergeRight_of_none, hT, hV,
          getKey_setKey_self, getKey_setKey_ne]
  · unfold build_property
    cases hj : isJsonable v
    · simp [getKeyE, hj]
    · cases uc <;> cases oa <;> cases ds <;> by_cases hu : ud.isEmpty <;>
        simp [getKeyE, hj, hu, getKey_mergeRight_of_none, hT, hV,
          getKey_setKey_self, getKey_setKey_ne]
  · unfold build_relationship
    cases oa2 <;> by_cases hu : ud.isEmpty <;>
      simp [hu, getKey_mergeRight_of_none, hT, hO,
        getKey_setKey_self, getKey_setKey_ne]
  · unfold build_relationship
    cases oa2 <;> by_cases hu : ud.isEmpty <;>
      simp [hu, getKey_mergeRight_of_none, hT, hO,
        getKey_setKey_self, getKey_setKey_ne]

/-- C4 witness: the amended statement evaluated at a concrete value and a
concrete non-colliding userdata mapping. -/
theorem C4_userdata_preserves_reserved_witness :
    getKeyE (build_property (.vint 7) none none none [("extra", .vstr "e")])
        "type" =
      (if isJsonable (.vint 7) then some (.vstr "Property") else none) ∧
    getKeyE (build_property (.vint 7) none none none [("extra", .vstr "e")])
        "value" =
      (if isJsonable (.vint 7) then some (.vint 7) else none) ∧
    getKey (build_relationship "dev1" none [("extra", .vstr "e")]) "type" =
      some (.vstr "Relationship") ∧
    getKey (build_relationship "dev1" none [("extra", .vstr "e")]) "object" =
      some (.vstr (urnNormalize "dev1")) :=
  C4_userdata_preserves_reserved (.vint 7) none none none "dev1" none
    [("extra", .vstr "e")] rfl rfl rfl

/-- C7 counterexample: a document whose `id` key is present but bound to the
empty string has all three required keys present, yet from_dict raises
MissingIdError, refuting the claim that presence of the three keys suffices
for success. -/
theorem C7_present_but_falsy_id :
    getKey [("id", JVal.vstr ""), ("type", JVal.vstr "Room"),
            ("@context", JVal.vlist [.vstr "ctx"])] "id" =
      some (JVal.vstr "") ∧
    from_dict [("id", JVal.vstr ""), ("type", JVal.vstr "Room"),
               ("@context", JVal.vlist [.vstr "ctx"])] =
      .error .missingId :=
  ⟨rfl, rfl⟩

/-- C7 amended: from_dict raises MissingIdError, MissingTypeError or
MissingContextError when `id`, `type` or `@context` respectively is absent
or bound to a falsy value (checked in that order); when all three are
present and truthy it succeeds, and the resulting payload binds every key of
the input document to the value the document supplies, with no shape
validation. -/
theorem C7_from_dict_checks (doc : NDict)
    (hnd : (doc.map Prod.fst).Nodup) :
    (truthyOpt (getKey doc "id") = false →
        from_dict doc = .error .missingId) ∧
    (truthyOpt (getKey doc "id") = true →
      truthyOpt (getKey doc "type") = false →
        from_dict doc = .error .missingType) ∧
    (truthyOpt (getKey doc "id") = true →
      truthyOpt (getKey doc "type") = true →
      truthyOpt (getKey doc "@context") = false →
        from_dict doc = .error .missingContext) ∧
    (truthyOpt (getKey doc "id") = true →
      truthyOpt (getKey doc "type") = true →
      truthyOpt (getKey doc "@context") = true →
        from_dict doc =
          .ok (mergeRight (entityInitPayload .null .null CTX_DEFAULT) doc) ∧
        ∀ k, getKey
            (mergeRight (entityInitPayload .null .null CTX_DEFAULT) doc) k =
          getKey doc k) := by
  refine ⟨fun h1 => ?_, fun h1 h2 => ?_, fun h1 h2 h3 => ?_,
    fun h1 h2 h3 => ⟨?_, fun k => ?_⟩⟩
  · simp [from_dict, h1]
  · simp [from_dict, h1, h2]
  · simp [from_dict, h1, h2, h3]
  · simp [from_dict, h1, h2, h3]
  · match hdoc : getKey doc k with
    | some v => exact getKey_mergeRight_of_some _ _ _ _ hnd hdoc
    | none =>
        rw [getKey_mergeRight_of_none _ _ _ hdoc]
        have hmem : ∀ k2, truthyOpt (getKey doc k2) = true →
            getKey doc k2 ≠ none := by
          intro k2 ht hn
          rw [hn] at ht
          simp [truthyOpt] at ht
        rw [getKey_eq_none_of_not_mem]
        intro hk
        simp only [entityInitPayload, List.map_cons, List.map_nil,
          List.mem_cons, List.not_mem_nil, or_false] at hk
        rcases hk with rfl | rfl | rfl
        · exact hmem _ h3 hdoc
        · exact hmem _ h1 hdoc
        · exact hmem _ h2 hdoc

/-- C7 witness: the amended statement evaluated on a concrete well-formed
document carrying an extra unvalidated field. -/
theorem C7_from_dict_checks_witness :
    (truthyOpt (getKey [("id", JVal.vstr "urn:ngsi-ld:Room:1"),
        ("type", JVal.vstr "Room"), ("@context", JVal.vlist [.vstr "ctx"]),
        ("temperature", JVal.vint 23)] "id") = false →
      from_dict [("id", JVal.vstr "urn:ngsi-ld:Room:1"),
        ("type", JVal.vstr "Room"), ("@context", JVal.vlist [.vstr "ctx"]),
        ("temperature", JVal.vint 23)] = .error .missingId) ∧
    (truthyOpt (getKey [("id", JVal.vstr "urn:ngsi-ld:Room:1"),
        ("type", JVal.vstr "Room"), ("@context", JVal.vlist [.vstr "ctx"]),
        ("temperature", JVal.vint 23)] "id") = true →
      truthyOpt (getKey [("id", JVal.vstr "urn:ngsi-ld:Room:1"),
        ("type", JVal.vstr "Room"), ("@context", JVal.vlist [.vstr "ctx"]),
        ("temperature", JVal.vint 23)] "type") = false →
      from_dict [("id", JVal.vstr "urn:ngsi-ld:Room:1"),
        ("type", JVal.vstr "Room"), ("@context", JVal.vlist [.vstr "ctx"]),
        ("temperature", JVal.vint 23)] = .error .missingType) ∧
    (truthyOpt (getKey [("id", JVal.vstr "urn:ngsi-ld:Room:1"),
        ("type", JVal.vstr "Room"), ("@context", JVal.vlist [.vstr "ctx"]),
        ("temperature", JVal.vint 23)] "id") = true →
      truthyOpt (getKey [("id", JVal.vstr "urn:ngsi-ld:Room:1"),
        ("type", JVal.vstr "Room"), ("@context", JVal.vlist [.vstr "ctx"]),
        ("temperature", JVal.vint 23)] "type") = true →
      truthyOpt (getKey [("id", JVal.vstr "urn:ngsi-ld:Room:1"),
        ("type", JVal.vstr "Room"), ("@context", JVal.vlist [.vstr "ctx"]),
        ("temperature", JVal.vint 23)] "@context") = false →
      from_dict [("id", JVal.vstr "urn:ngsi-ld:Room:1"),
        ("type", JVal.vstr "Room"), ("@context", JVal.vlist [.vstr "ctx"]),
        ("temperature", JVal.vint 23)] = .error .missingContext) ∧
    (truthyOpt (getKey [("id", JVal.vstr "urn:ngsi-ld:Room:1"),
        ("type", JVal.vstr "Room"), ("@context", JVal.vlist [.vstr "ctx"]),
        ("temperature", JVal.vint 23)] "id") = true →
      truthyOpt (getKey [("id", JVal.vstr "urn:ngsi-ld:Room:1"),
        ("type", JVal.vstr "Room"), ("@context", JVal.vlist [.vstr "ctx"]),
        ("temperature", JVal.vint 23)] "type") = true →
      truthyOpt (getKey [("id", JVal.vstr "urn:ngsi-ld:Room:1"),
        ("type", JVal.vstr "Room"), ("@context", JVal.vlist [.vstr "ctx"]),
        ("temperature", JVal.vint 23)] "@context") = true →
      from_dict [("id", JVal.vstr "urn:ngsi-ld:Room:1"),
        ("type", JVal.vstr "Room"), ("@context", JVal.vlist [.vstr "ctx"]),
        ("temperature", JVal.vint 23)] =
        .ok (mergeRight (entityInitPayload .null .null CTX_DEFAULT)
          [("id", JVal.vstr "urn:ngsi-ld:Room:1"),
           ("type", JVal.vstr "Room"), ("@context", JVal.vlist [.vstr "ctx"]),
           ("temperature", JVal.vint 23)]) ∧
      ∀ k, getKey (mergeRight (entityInitPayload .null .null CTX_DEFAULT)
          [("id", JVal.vstr "urn:ngsi-ld:Room:1"),
           ("type", JVal.vstr "Room"), ("@context", JVal.vlist [.vstr "ctx"]),
           ("temperature", JVal.vint 23)]) k =
        getKey [("id", JVal.vstr "urn:ngsi-ld:Room:1"),
           ("type", JVal.vstr "Room"), ("@context", JVal.vlist [.vstr "ctx"]),
           ("temperature", JVal.vint 23)] k) :=
  C7_from_dict_checks
    [("id", JVal.vstr "urn:ngsi-ld:Room:1"), ("type", JVal.vstr "Room"),
     ("@context", JVal.vlist [.vstr "ctx"]), ("temperature", JVal.vint 23)]
    (by simp)

/-- C2, code bug at check_exists=False: for every configuration, broker
state and entity, update with check_exists=False returns None and issues no
network request at all, where the claim (and the evident intent of the
overwrite branch of create) requires a delete followed by a create returning
the recreated entity. -/
theorem C2_update_nocheck_is_noop (cfg : Cfg) (br : Broker) (e : Ent) :
    update cfg br e false = (.ok none, br, []) := by
  simp [update]

/-- The default client configuration (overwrite and ignore_errors off). -/
def cfgDefault : Cfg := ⟨false, false⟩

/-- A concrete entity used by the endpoint scenarios. -/
def entRoom : Ent := ⟨"urn:ngsi-ld:Room:1"⟩

/-- A broker that already stores that entity id. -/
def brWithRoom : Broker := ["urn:ngsi-ld:Room:1"]

/-- C1, code bug on the overwrite path: against a broker answering 409,
create with skip returns None, create with default flags raises
AlreadyExistsError (both as claimed), but create with overwrite (or with the
endpoint-level overwrite default) recurses into update(check_exists=False),
which returns None without issuing any further request, so no delete+create
happens and None is returned instead of the entity. -/
theorem C1_create_conflict_eval :
    create cfgDefault brWithRoom entRoom true false =
      (.ok none, brWithRoom, [.post "urn:ngsi-ld:Room:1"]) ∧
    create cfgDefault brWithRoom entRoom false false =
      (.error .alreadyExists, brWithRoom, [.post "urn:ngsi-ld:Room:1"]) ∧
    create cfgDefault brWithRoom entRoom false true =
      (.ok none, brWithRoom, [.post "urn:ngsi-ld:Room:1"]) ∧
    create ⟨true, false⟩ brWithRoom entRoom false false =
      (.ok none, brWithRoom, [.post "urn:ngsi-ld:Room:1"]) := by
  refine ⟨?_, ?_, ?_, ?_⟩ <;>
    simp [create, update, brokerPost, raise_for_status, cfgDefault,
      entRoom, brWithRoom]

/-! ### Endpoint protocol lemmas -/

theorem create_fresh (cfg : Cfg) (br : Broker) (e : Ent)
    (hA : e.id ∉ br)
    (hecho : afterLastSlash ("http://broker/ngsi-ld/v1/entities/" ++ e.id) =
      e.id) :
    create cfg br e false false =
      (.ok (some e), br ++ [e.id], [.post e.id]) := by
  simp [create, brokerPost, hA, raise_for_status, hecho]

theorem create_conflict (cfg : Cfg) (br : Broker) (e : Ent)
    (hov : cfg.overwrite = false) (hB : e.id ∈ br) :
    create cfg br e false false =
      (.error .alreadyExists, br, [.post e.id]) := by
  simp [create, brokerPost, hB, hov, raise_for_status]

theorem deleteOp_mem (br : Broker) (eid : String) (h : eid ∈ br) :
    deleteOp br eid = (.ok true, br.erase eid, [.del eid]) := by
  simp [deleteOp, brokerDelete, h, raise_for_status]

/-- C3: upsert attempts create and only on AlreadyExistsError deletes and
recreates, absorbing the error. Against a nominal broker without the id it
issues exactly one POST and returns the entity; against a broker with the
id it issues POST, DELETE, POST in that order and returns the entity, the
broker ending with the fresh copy. Stated under the default endpoint
overwrite configuration, for brokers without duplicate ids, and for an id
the nominal Location echo round-trips. -/
theorem C3_upsert_traces (cfg : Cfg) (brA brB : Broker) (e : Ent)
    (hov : cfg.overwrite = false) (hndB : brB.Nodup)
    (hA : e.id ∉ brA) (hB : e.id ∈ brB)
    (hecho : afterLastSlash ("http://broker/ngsi-ld/v1/entities/" ++ e.id) =
      e.id) :
    upsert cfg brA e = (.ok (some e), brA ++ [e.id], [.post e.id]) ∧
    upsert cfg brB e =
      (.ok (some e), brB.erase e.id ++ [e.id],
       [.post e.id, .del e.id, .post e.id]) := by
  constructor
  · rw [upsert, create_fresh cfg brA e hA hecho]
  · have hA2 : e.id ∉ brB.erase e.id := by
      intro hmem
      exact ((hndB.mem_erase_iff).1 hmem).1 rfl
    rw [upsert, create_conflict cfg brB e hov hB]
    dsimp only
    rw [deleteOp_mem brB e.id hB]
    dsimp only
    rw [create_fresh cfg (brB.erase e.id) e hA2 hecho]
    simp

/-- C3 witness: the two upsert scenarios evaluated against the empty broker
and the broker already holding the entity id. -/
theorem C3_upsert_traces_witness :
    upsert cfgDefault [] entRoom =
      (.ok (some entRoom), [] ++ [entRoom.id], [.post entRoom.id]) ∧
    upsert cfgDefault brWithRoom entRoom =
      (.ok (some entRoom), brWithRoom.erase entRoom.id ++ [entRoom.id],
       [.post entRoom.id, .del entRoom.id, .post entRoom.id]) :=
  C3_upsert_traces cfgDefault [] brWithRoom entRoom rfl (by decide)
    (by decide) (by decide) (by decide)

/-- C9: called with neither a type nor a query string, both _query and
count raise ValueError synchronously, with an empty network trace: no GET
is issued on that path, whatever the other arguments are. -/
theorem C9_query_count_require_filters (gq ctx : Option String)
    (limit offset : Nat) (resp : List NDict) (hdr : Option String) :
    queryOp none none gq ctx limit offset resp = (.error .valueError, []) ∧
    countOp none none gq ctx hdr = (.error .valueError, []) := by
  constructor <;> simp [queryOp, countOp]

/-- The module heap after one default-constructed ContextBuilder adds a
uri. -/
def heapAfterAdd (uri : String) : Heap :=
  (ctxbAdd h0 (ctxbNew none) uri).1

/-- C10: add on a default-constructed ContextBuilder mutates the
class-level DEFAULT list in place, so a subsequently default-constructed
builder observes the added uri in its built context, and an Entity created
with the default context argument (evaluated once at definition time)
stores the very same mutated list. -/
theorem C10_default_context_is_shared (uri : String) :
    readStrList (heapAfterAdd uri) (ctxbBuild (ctxbNew none)) =
      some [FIWARE_CTX, CORE_CTX, uri] ∧
    (dictGet (entityNew (heapAfterAdd uri) "Room1" "Room"
        entityDefaultCtx).1
        (entityNew (heapAfterAdd uri) "Room1" "Room" entityDefaultCtx).2
        "@context").bind
      (readStrList (entityNew (heapAfterAdd uri) "Room1" "Room"
        entityDefaultCtx).1) = some [FIWARE_CTX, CORE_CTX, uri] :=
  ⟨rfl, rfl⟩

/-- The heap and payload address of an Entity constructed at module load
with the default context argument. -/
def entityAtLoad (id ty : String) : Heap × Nat :=
  entityNew h0 id ty entityDefaultCtx

/-- C5 counterexample: with contextfirst=True, to_dict hands back the
stored payload itself, same heap and same address, so the mutation
`returned["id"] = <node 0>` performed on the returned mapping is observed
when reading the entity stored payload (its id entry moves from node 3 to
node 0), refuting the defensive-copy claim; and even with
contextfirst=False the copy's `@context` entry still holds the address of
the entity's own context list. -/
theorem C5_to_dict_not_defensive :
    to_dict 10 (entityAtLoad "Room1" "Room").1 (entityAtLoad "Room1" "Room").2
        true =
      some ((entityAtLoad "Room1" "Room").1, (entityAtLoad "Room1" "Room").2) ∧
    dictGet (entityAtLoad "Room1" "Room").1 (entityAtLoad "Room1" "Room").2
        "id" = some 3 ∧
    dictGet (dictSet (entityAtLoad "Room1" "Room").1
        (entityAtLoad "Room1" "Room").2 "id" 0)
        (entityAtLoad "Room1" "Room").2 "id" = some 0 ∧
    (to_dict 10 (entityAtLoad "Room1" "Room").1
        (entityAtLoad "Room1" "Room").2 false).map
        (fun hc => dictGet hc.1 hc.2 "@context") =
      some (dictGet (entityAtLoad "Room1" "Room").1
        (entityAtLoad "Room1" "Room").2 "@context") :=
  ⟨rfl, rfl, rfl, rfl⟩

/-- The heap to_dict(contextfirst=False) produces for an entity built at
module load: the six original nodes untouched, the deep-copied context
strings and list, the copied id and type strings, and the copied payload
dict whose `@context` entry still points at the shared original context
list at address 2. -/
def C5copyHeap (id ty : String) : Heap :=
  [.pstr FIWARE_CTX, .pstr CORE_CTX, .plist [0, 1],
   .pstr (urnNormalize id), .pstr ty,
   .pdict [("@context", 2), ("id", 3), ("type", 4)],
   .pstr FIWARE_CTX, .pstr CORE_CTX, .plist [6, 7],
   .pstr (urnNormalize id), .pstr ty,
   .pdict [("id", 9), ("type", 10), ("@context", 2)]]

/-- C5 amended: to_dict with contextfirst=True returns the stored payload
itself for every heap and address, no copy at all; with contextfirst=False
it returns a fresh deep copy whose `@context` key is relocated to the end
of the key ordering while the other keys keep their order, except that the
`@context` value is shared by reference with the entity, so mutations of
the copy's other entries (here its id) leave the entity payload
unchanged. -/
theorem C5_to_dict_shape (id ty : String) :
    (∀ (fuel : Nat) (h : Heap) (p : Nat),
        to_dict fuel h p true = some (h, p)) ∧
    to_dict 10 (entityAtLoad id ty).1 (entityAtLoad id ty).2 false =
      some (C5copyHeap id ty, 11) ∧
    dictKeys (entityAtLoad id ty).1 (entityAtLoad id ty).2 =
      some ["@context", "id", "type"] ∧
    dictKeys (C5copyHeap id ty) 11 = some ["id", "type", "@context"] ∧
    dictGet (C5copyHeap id ty) 11 "@context" =
      dictGet (entityAtLoad id ty).1 (entityAtLoad id ty).2 "@context" ∧
    dictGet (dictSet (C5copyHeap id ty) 11 "id" 0) (entityAtLoad id ty).2
        "id" = some 3 ∧
    readStr (dictSet (C5copyHeap id ty) 11 "id" 0) 3 =
      some (urnNormalize id) :=
  ⟨fun _ _ _ => rfl, rfl, rfl, rfl, rfl, rfl, rfl⟩

end Spec2Proof
